import Mathlib

/-!
Shallow embedding of the REI Nationwide cloud API server (src/api/main.py).

The embedding models the authentication / authorization / audit core and the
handlers the claims are about:

* `create_token` / `decode_token`  — the JWT token service (main.py:167-185).
  A token string is modelled as either a structurally well-formed
  payload+signature pair or unparseable garbage; `sign` stands for the HMAC
  signature, and `decode_token` recomputes and compares it exactly as
  `jwt.decode` does (signature first, then the `exp` claim, which PyJWT
  rejects when `exp < now`).
* `login` / `register` (main.py:312-375), `search_properties`
  (main.py:395-415), `skip_trace_endpoint` (main.py:456-471),
  `ai_query_endpoint` (main.py:517-528), `get_activity` (main.py:549-568).
* `log_activity` (main.py:204-213) and the inline last-login UPDATE inside
  `login` (main.py:364) have no exception handling in the source, so the
  model routes a storage failure of either write (injected through
  `FaultModel`) to the `crash` outcome, the unhandled-exception /
   500-equivalent result of a FastAPI handler.

Python truthiness (`if req.min_equity:`, `if context:`, `req.context or d`)
is modelled by the explicit `intTruthy` / `boolTruthy` / `strTruthy` tests.
SQLite state is a `DBState` record; each handler returns an `Outcome`:
its HTTP-level result, the database state after the request, and the trace
of side effects (upstream calls, inserts, token issuance) it performed.
-/

namespace REI

/-- JWT claims dictionary built by `create_token` (main.py:169-174). -/
structure JWTPayload where
  user_id : Nat
  email : String
  role : String
  exp : Nat
  deriving DecidableEq, Repr

/-- A bearer token string: either a structurally valid JWT carrying a payload
and a signature string, or an unparseable blob. -/
inductive TokenString where
  | structured (payload : JWTPayload) (sig : String)
  | garbage (raw : String)
  deriving DecidableEq, Repr

/-- The HMAC-SHA256 signature over the encoded payload, keyed by the
process-wide secret (`jwt.encode`, main.py:175).  Modelled as an injective
encoding of secret and payload. -/
def sign (secret : String) (p : JWTPayload) : String :=
  secret ++ "#" ++ toString p.user_id ++ "#" ++ p.email ++ "#" ++ p.role ++ "#" ++ toString p.exp

/-- `JWT_EXPIRY_HOURS = 24` (main.py:51). -/
def JWT_EXPIRY_HOURS : Nat := 24

/-- `create_token` (main.py:167-175): payload carries user_id, email, role and
`exp = now + 24h`; the result is the signed token. -/
def create_token (secret : String) (now : Nat) (user_id : Nat) (email role : String) :
    TokenString :=
  let payload : JWTPayload := ⟨user_id, email, role, now + JWT_EXPIRY_HOURS * 3600⟩
  .structured payload (sign secret payload)

/-- The two internally distinguishable validation failures of `decode_token`:
`jwt.ExpiredSignatureError` and `jwt.InvalidTokenError` (main.py:182-185). -/
inductive TokenError where
  | Expired
  | Malformed
  deriving DecidableEq, Repr

/-- `decode_token` (main.py:177-185), following `jwt.decode`: an unparseable
token or a signature mismatch is `Malformed`; a verified token whose `exp`
claim is in the past (`exp < now`, PyJWT with zero leeway) is `Expired`;
otherwise the payload is returned. -/
def decode_token (secret : String) (now : Nat) :
    TokenString → Except TokenError JWTPayload
  | .garbage _ => .error .Malformed
  | .structured p s =>
    if s = sign secret p then
      if p.exp < now then .error .Expired else .ok p
    else .error .Malformed

/-- HTTP status and detail string of the `HTTPException` raised for each
token validation failure (main.py:183,185). -/
def tokenErrorStatus : TokenError → Nat
  | .Expired => 401
  | .Malformed => 401

/-- Detail string of the 401 raised for each token failure kind. -/
def tokenErrorDetail : TokenError → String
  | .Expired => "Token expired"
  | .Malformed => "Invalid token"

/-- A row of the `users` table (main.py:68-79). -/
structure User where
  id : Nat
  email : String
  password_hash : String
  name : String
  role : String
  is_active : Bool
  last_login : Option Nat
  deriving DecidableEq, Repr

/-- A row of the `activity_log` table (main.py:82-93). -/
structure ActivityRecord where
  id : Nat
  user_id : Option Nat
  action : String
  endpoint : Option String
  details : Option String
  ip_address : Option String
  created_at : Nat
  deriving DecidableEq, Repr

/-- The SQLite database: users table, activity log, and the AUTOINCREMENT
counters for the two tables. -/
structure DBState where
  users : List User
  activity_log : List ActivityRecord
  nextUserId : Nat
  nextLogId : Nat
  deriving DecidableEq, Repr

/-- bcrypt.hash (main.py:325): modelled as a deterministic injective hash. -/
def bcryptHash (password : String) : String :=
  "bcrypt$" ++ password

/-- bcrypt.verify (main.py:355): accepts exactly the hash of the password. -/
def bcryptVerify (password hash : String) : Bool :=
  hash == bcryptHash password

/-- `SELECT ... FROM users WHERE email = ?` with `fetchone()`
(main.py:351-353): first row whose email matches exactly. -/
def findByEmail (users : List User) (email : String) : Option User :=
  users.find? (fun u => u.email == email)

/-- `UPDATE users SET last_login = ? WHERE id = ?` (main.py:364). -/
def touchLogin (st : DBState) (uid : Nat) (now : Nat) : DBState :=
  { st with users := st.users.map (fun u => if u.id == uid then { u with last_login := some now } else u) }

/-- Injected storage failures for the two writes the source performs with no
exception handling: the `activity_log` INSERT inside `log_activity`
(main.py:208-212) and the last-login UPDATE inside `login` (main.py:364).
A `true` flag means the corresponding SQLite statement raises. -/
structure FaultModel where
  logWriteFails : Bool
  touchLoginFails : Bool
  deriving DecidableEq, Repr

/-- `log_activity` (main.py:204-213): appends one activity row stamped with
the current server time.  The function body has no try/except, so a storage
failure escapes to the caller: the model returns `Except.error ()` then. -/
def log_activity (fm : FaultModel) (st : DBState) (user_id : Option Nat) (action : String)
    (endpoint : Option String) (details : Option String) (ip : Option String) (now : Nat) :
    Except Unit DBState :=
  if fm.logWriteFails then .error ()
  else .ok { st with
    activity_log := st.activity_log ++ [⟨st.nextLogId, user_id, action, endpoint, details, ip, now⟩],
    nextLogId := st.nextLogId + 1 }

/-- HTTP-level failure of one request: an `HTTPException` with status and
detail, or an unhandled exception escaping the handler (500-equivalent). -/
inductive Failure where
  | http (status : Nat) (detail : String)
  | crash
  deriving DecidableEq, Repr

/-- Side effects a handler performs, in order. -/
inductive Event where
  | upstreamCall (endpoint : String)
  | userInsert
  | lastLoginUpdate
  | tokenIssued
  | auditInsert
  deriving DecidableEq, Repr

/-- The observable outcome of one request: HTTP-level result, database state
afterwards, and the ordered trace of side effects performed. -/
structure Outcome (α : Type) where
  result : Except Failure α
  state : DBState
  events : List Event

/-- Request body of `/api/v1/auth/register` (main.py:114-118). -/
structure UserCreate where
  email : String
  password : String
  name : String
  role : String := "member"
  deriving DecidableEq, Repr

/-- Request body of `/api/v1/auth/login` (main.py:120-122). -/
structure UserLogin where
  email : String
  password : String
  deriving DecidableEq, Repr

/-- `UserResponse` (main.py:124-129). -/
structure UserResponse where
  id : Nat
  email : String
  name : String
  role : String
  is_active : Bool
  deriving DecidableEq, Repr

/-- `TokenResponse` (main.py:131-134). -/
structure TokenResponse where
  access_token : TokenString
  token_type : String := "bearer"
  user : UserResponse
  deriving DecidableEq, Repr

/-- `register` (main.py:312-343): reject a duplicate email with 400,
otherwise insert the user (bcrypt-hashed password, active by default),
issue a token, and log the registration. -/
def register (fm : FaultModel) (secret : String) (now : Nat) (ip : String)
    (st : DBState) (u : UserCreate) : Outcome TokenResponse :=
  match findByEmail st.users u.email with
  | some _ => ⟨.error (.http 400 "Email already registered"), st, []⟩
  | none =>
    let uid := st.nextUserId
    let newUser : User := ⟨uid, u.email, bcryptHash u.password, u.name, u.role, true, none⟩
    let st1 : DBState := { st with users := st.users ++ [newUser], nextUserId := st.nextUserId + 1 }
    let token := create_token secret now uid u.email u.role
    match log_activity fm st1 (some uid) "register" (some "/api/v1/auth/register") none (some ip) now with
    | .error _ => ⟨.error .crash, st1, [.userInsert, .tokenIssued]⟩
    | .ok st2 =>
      ⟨.ok ⟨token, "bearer", ⟨uid, u.email, u.name, u.role, true⟩⟩, st2,
        [.userInsert, .tokenIssued, .auditInsert]⟩

/-- `login` (main.py:345-375): missing user and wrong password both raise
401 "Invalid credentials" (the user lookup short-circuits before bcrypt);
an inactive user raises 401 "Account disabled"; then the last-login UPDATE
runs, the token is issued, and the login is logged.  The UPDATE and the
audit INSERT have no exception handling, so their failure crashes the
request at that point. -/
def login (fm : FaultModel) (secret : String) (now : Nat) (ip : String)
    (st : DBState) (credentials : UserLogin) : Outcome TokenResponse :=
  match findByEmail st.users credentials.email with
  | none => ⟨.error (.http 401 "Invalid credentials"), st, []⟩
  | some u =>
    if bcryptVerify credentials.password u.password_hash then
      if u.is_active then
        if fm.touchLoginFails then ⟨.error .crash, st, []⟩
        else
          let st1 := touchLogin st u.id now
          let token := create_token secret now u.id u.email u.role
          match log_activity fm st1 (some u.id) "login" (some "/api/v1/auth/login") none (some ip) now with
          | .error _ => ⟨.error .crash, st1, [.lastLoginUpdate, .tokenIssued]⟩
          | .ok st2 =>
            ⟨.ok ⟨token, "bearer", ⟨u.id, u.email, u.name, u.role, true⟩⟩, st2,
              [.lastLoginUpdate, .tokenIssued, .auditInsert]⟩
      else ⟨.error (.http 401 "Account disabled"), st, []⟩
    else ⟨.error (.http 401 "Invalid credentials"), st, []⟩

/-- Python truthiness of an optional integer: `None` and `0` are falsy. -/
def intTruthy : Option Int → Bool
  | none => false
  | some v => v != 0

/-- Python truthiness of an optional boolean. -/
def boolTruthy : Option Bool → Bool
  | none => false
  | some b => b

/-- Python truthiness of an optional string: `None` and `""` are falsy. -/
def strTruthy : Option String → Bool
  | none => false
  | some s => s != ""

/-- A value inside one upstream search filter dictionary. -/
inductive FilterValue where
  | str (s : String)
  | int (n : Int)
  | bool (b : Bool)
  deriving DecidableEq, Repr

/-- One `{"field": .., "value": .., "operator": ..}` filter dictionary sent to
the upstream PropertySearch endpoint (main.py:398-408). -/
structure SearchFilter where
  field : String
  value : FilterValue
  op : String
  deriving DecidableEq, Repr

/-- Request body of `/api/v1/properties/search` (main.py:136-142) with its
pydantic defaults. -/
structure PropertySearchRequest where
  city : String
  state : String
  min_equity : Option Int := some 40
  absentee_only : Option Bool := some false
  min_year_built : Option Int := none
  max_results : Option Nat := some 10
  deriving DecidableEq, Repr

/-- The filter list built by `search_properties` (main.py:398-408): city and
state always; the equity, absentee and year-built filters are appended only
when the corresponding field is truthy in Python (`if req.min_equity:` etc.),
so `None`, `0` and `False` all suppress the filter. -/
def buildSearchFilters (req : PropertySearchRequest) : List SearchFilter :=
  let fs0 := [⟨"city", .str req.city, "="⟩, ⟨"state", .str req.state, "="⟩]
  let fs1 := if intTruthy req.min_equity then
    fs0 ++ [⟨"equity_percent", .int (req.min_equity.getD 0), "ge"⟩] else fs0
  let fs2 := if boolTruthy req.absentee_only then
    fs1 ++ [⟨"absentee_owner", .bool true, "="⟩] else fs1
  let fs3 := if intTruthy req.min_year_built then
    fs2 ++ [⟨"year_built", .int (req.min_year_built.getD 0), "ge"⟩] else fs2
  fs3

/-- One entry of the upstream AutoComplete `data` list; `address_id` is read
with `.get`, so it may be absent (main.py:426). -/
structure AutoEntry where
  address_id : Option String
  deriving DecidableEq, Repr

/-- Result of the upstream AutoComplete call: its `data` list (empty when the
call failed or nothing matched). -/
structure AutoResult where
  data : List AutoEntry
  deriving DecidableEq, Repr

/-- The external Upstream Gateway (`RealEstateAPI`, main.py:219-256): a pure
oracle giving the JSON-like response of each outbound call; responses of the
opaque endpoints are plain strings. -/
structure Upstream where
  autocomplete : String → AutoResult
  skipTrace : Option String → String
  propertySearch : List SearchFilter → Option Nat → String

/-- Roles accepted by `require_role` on `/api/v1/skip-trace` (main.py:458). -/
def SKIP_TRACE_ROLES : List String := ["admin", "manager", "acquisitions"]

/-- `search_properties` (main.py:395-415): the bearer token is resolved by the
`get_current_user` dependency before the handler body runs; then the filters
are built, the upstream PropertySearch is called, the search is logged, and
the upstream result is returned verbatim. -/
def search_properties (fm : FaultModel) (secret : String) (now : Nat) (ip : String)
    (token : TokenString) (req : PropertySearchRequest) (up : Upstream) (st : DBState) :
    Outcome String :=
  match decode_token secret now token with
  | .error e => ⟨.error (.http (tokenErrorStatus e) (tokenErrorDetail e)), st, []⟩
  | .ok user =>
    let filters := buildSearchFilters req
    let result := up.propertySearch filters req.max_results
    match log_activity fm st (some user.user_id) "property_search" (some "/api/v1/properties/search")
        (some (req.city ++ ", " ++ req.state)) (some ip) now with
    | .error _ => ⟨.error .crash, st, [.upstreamCall "PropertySearch"]⟩
    | .ok st1 => ⟨.ok result, st1, [.upstreamCall "PropertySearch", .auditInsert]⟩

/-- `skip_trace` (main.py:456-471): `require_role(["admin","manager",
"acquisitions"])` runs as a dependency, i.e. token validation (401 on
failure) then the role check (403), before the handler body; only then does
the handler call AutoComplete, 404 on an empty candidate list, call the
upstream SkipTrace, and log. -/
def skip_trace_endpoint (fm : FaultModel) (secret : String) (now : Nat) (ip : String)
    (token : TokenString) (address : String) (up : Upstream) (st : DBState) :
    Outcome String :=
  match decode_token secret now token with
  | .error e => ⟨.error (.http (tokenErrorStatus e) (tokenErrorDetail e)), st, []⟩
  | .ok user =>
    if user.role ∈ SKIP_TRACE_ROLES then
      let auto := (up.autocomplete address).data
      match auto.head? with
      | none => ⟨.error (.http 404 "Address not found"), st, [.upstreamCall "AutoComplete"]⟩
      | some entry =>
        let result := up.skipTrace entry.address_id
        match log_activity fm st (some user.user_id) "skip_trace" (some "/api/v1/skip-trace")
            (some address) (some ip) now with
        | .error _ => ⟨.error .crash, st, [.upstreamCall "AutoComplete", .upstreamCall "SkipTrace"]⟩
        | .ok st1 =>
          ⟨.ok result, st1, [.upstreamCall "AutoComplete", .upstreamCall "SkipTrace", .auditInsert]⟩
    else ⟨.error (.http 403 "Insufficient permissions"), st, []⟩

/-- Request body of `/api/v1/ai/query` (main.py:156-159) with its defaults. -/
structure AIQueryRequest where
  query : String
  context : Option String := none
  model : Option String := some "gpt-4o"
  deriving DecidableEq, Repr

/-- One chat message of the OpenAI payload. -/
structure OpenAIMessage where
  role : String
  content : String
  deriving DecidableEq, Repr

/-- The JSON payload `query_openai` posts to the OpenAI chat-completions
endpoint (main.py:276). -/
structure OpenAIPayload where
  model : String
  messages : List OpenAIMessage
  max_tokens : Nat
  deriving DecidableEq, Repr

/-- The payload built by `query_openai` (main.py:266-276): optional system
message from a truthy context, the user prompt, and the model name fixed to
"gpt-4o" regardless of anything in the request. -/
def query_openai_payload (prompt : String) (context : Option String) : OpenAIPayload :=
  { model := "gpt-4o",
    messages :=
      (if strTruthy context then [⟨"system", context.getD ""⟩] else []) ++ [⟨"user", prompt⟩],
    max_tokens := 1000 }

/-- `query_openai` (main.py:262-279): reports "OpenAI not configured" when no
API key is set, otherwise posts the payload built by `query_openai_payload`
and returns the completion text.  `post` abstracts the outbound HTTP call. -/
def query_openai (apiKey : String) (post : OpenAIPayload → String)
    (prompt : String) (context : Option String) : String :=
  if apiKey = "" then "OpenAI not configured"
  else post (query_openai_payload prompt context)

/-- The default assistant context of `ai_query` (main.py:520-521). -/
def defaultAIContext : String :=
  "You are the REI Nationwide AI Assistant. \n    Help the team with real estate investment questions, deal analysis, and strategy."

/-- Response of `/api/v1/ai/query` (main.py:528): the completion text and the
echoed request model field. -/
structure AIQueryResponse where
  response : String
  model : Option String
  deriving DecidableEq, Repr

/-- `ai_query` (main.py:517-528): the context falls back to the default when
the request context is falsy (`req.context or default`); the query goes
through `query_openai`; the response echoes `req.model` untouched. -/
def ai_query_endpoint (fm : FaultModel) (secret : String) (now : Nat) (ip : String)
    (apiKey : String) (post : OpenAIPayload → String)
    (token : TokenString) (req : AIQueryRequest) (st : DBState) :
    Outcome AIQueryResponse :=
  match decode_token secret now token with
  | .error e => ⟨.error (.http (tokenErrorStatus e) (tokenErrorDetail e)), st, []⟩
  | .ok user =>
    let context := if strTruthy req.context then req.context.getD "" else defaultAIContext
    let response := query_openai apiKey post req.query (some context)
    match log_activity fm st (some user.user_id) "ai_query" (some "/api/v1/ai/query")
        (some (req.query.take 100)) (some ip) now with
    | .error _ => ⟨.error .crash, st, [.upstreamCall "OpenAI"]⟩
    | .ok st1 => ⟨.ok ⟨response, req.model⟩, st1, [.upstreamCall "OpenAI", .auditInsert]⟩

/-- One row of the `/api/v1/admin/activity` response (main.py:564-567):
activity fields joined with the actor name and email, which are null when the
LEFT JOIN found no matching user. -/
structure ActivityView where
  id : Nat
  user_name : Option String
  user_email : Option String
  action : String
  endpoint : Option String
  details : Option String
  ip : Option String
  timestamp : Nat
  deriving DecidableEq, Repr

/-- `LEFT JOIN users u ON a.user_id = u.id` (main.py:557): joins the actor
name and email and renders them null when the user id is null or unknown. -/
def joinActor (users : List User) (r : ActivityRecord) : ActivityView :=
  match r.user_id.bind (fun uid => users.find? (fun u => u.id == uid)) with
  | some u => ⟨r.id, some u.name, some u.email, r.action, r.endpoint, r.details, r.ip_address, r.created_at⟩
  | none => ⟨r.id, none, none, r.action, r.endpoint, r.details, r.ip_address, r.created_at⟩

/-- Descending order on `created_at`, the `ORDER BY a.created_at DESC`
of `get_activity` (main.py:558). -/
def newerFirst (a b : ActivityRecord) : Prop :=
  b.created_at ≤ a.created_at

instance : DecidableRel newerFirst := fun a b => Nat.decLe b.created_at a.created_at

/-- `get_activity` (main.py:549-568): the activity rows sorted most recent
first, truncated to `limit` (default 100), each joined with its actor. -/
def get_activity (st : DBState) (limit : Nat := 100) : List ActivityView :=
  ((st.activity_log.insertionSort newerFirst).take limit).map (joinActor st.users)

instance : IsTotal ActivityRecord newerFirst :=
  ⟨fun a b => le_total b.created_at a.created_at⟩

instance : IsTrans ActivityRecord newerFirst :=
  ⟨fun _ _ _ h1 h2 => le_trans h2 h1⟩

/-- C2: token validation fails with `Expired` when the time is past the
encoded expiry of a correctly signed token, fails with `Malformed` when the
signature does not verify or the structure is unparseable; a token whose
encoded expiry is in the past is rejected regardless of other validity; both
failure kinds map to a 401 status at the boundary while remaining
distinguishable internally. -/
theorem token_validation_spec :
    (∀ (secret : String) (now : Nat) (p : JWTPayload),
      p.exp < now → decode_token secret now (.structured p (sign secret p)) = .error .Expired) ∧
    (∀ (secret : String) (now : Nat) (p : JWTPayload) (s : String),
      s ≠ sign secret p → decode_token secret now (.structured p s) = .error .Malformed) ∧
    (∀ (secret : String) (now : Nat) (raw : String),
      decode_token secret now (.garbage raw) = .error .Malformed) ∧
    (∀ (secret : String) (now : Nat) (p : JWTPayload) (s : String) (q : JWTPayload),
      p.exp < now → decode_token secret now (.structured p s) ≠ .ok q) ∧
    tokenErrorStatus .Expired = 401 ∧ tokenErrorStatus .Malformed = 401 ∧
    TokenError.Expired ≠ TokenError.Malformed := by
  refine ⟨?_, ?_, ?_, ?_, rfl, rfl, by decide⟩
  · intro secret now p h
    simp [decode_token, h]
  · intro secret now p s h
    simp [decode_token, h]
  · intro secret now raw
    simp [decode_token]
  · intro secret now p s q h
    by_cases hs : s = sign secret p <;> simp [decode_token, hs, h]

/-- Witness for C2 at concrete tokens: an expired well-signed token, a
badly signed token, a garbage token. -/
theorem token_validation_spec_witness :
    decode_token "k" 100 (.structured ⟨1, "a@b", "member", 99⟩ (sign "k" ⟨1, "a@b", "member", 99⟩)) =
      .error .Expired ∧
    decode_token "k" 100 (.structured ⟨1, "a@b", "member", 999⟩ "bad") = .error .Malformed ∧
    decode_token "k" 100 (.garbage "zzz") = .error .Malformed ∧
    decode_token "k" 100 (.structured ⟨1, "a@b", "member", 99⟩ "bad") ≠ .ok ⟨1, "a@b", "member", 99⟩ :=
  ⟨token_validation_spec.1 "k" 100 ⟨1, "a@b", "member", 99⟩ (by decide),
   token_validation_spec.2.1 "k" 100 ⟨1, "a@b", "member", 999⟩ "bad" (by decide),
   token_validation_spec.2.2.1 "k" 100 "zzz",
   token_validation_spec.2.2.2.1 "k" 100 ⟨1, "a@b", "member", 99⟩ "bad" ⟨1, "a@b", "member", 99⟩
     (by decide)⟩

/-- C3: login by a user whose active flag is false fails with 401 even when
the password is correct, with no side effect and in particular no token
issued (empty event trace). -/
theorem login_inactive_rejected (fm : FaultModel) (secret : String) (now : Nat) (ip : String)
    (st : DBState) (email password : String) (u : User)
    (hfind : findByEmail st.users email = some u)
    (hpw : bcryptVerify password u.password_hash = true)
    (hinactive : u.is_active = false) :
    (login fm secret now ip st ⟨email, password⟩).result = .error (.http 401 "Account disabled") ∧
    (login fm secret now ip st ⟨email, password⟩).events = [] ∧
    (login fm secret now ip st ⟨email, password⟩).state = st := by
  simp [login, hfind, hpw, hinactive]

/-- Witness for C3: a concrete disabled user with the correct password. -/
theorem login_inactive_rejected_witness :
    (login ⟨false, false⟩ "k" 5 "ip"
        ⟨[⟨1, "dis@x", bcryptHash "pw", "D", "member", false, none⟩], [], 2, 1⟩
        ⟨"dis@x", "pw"⟩).result = .error (.http 401 "Account disabled") ∧
    (login ⟨false, false⟩ "k" 5 "ip"
        ⟨[⟨1, "dis@x", bcryptHash "pw", "D", "member", false, none⟩], [], 2, 1⟩
        ⟨"dis@x", "pw"⟩).events = [] ∧
    (login ⟨false, false⟩ "k" 5 "ip"
        ⟨[⟨1, "dis@x", bcryptHash "pw", "D", "member", false, none⟩], [], 2, 1⟩
        ⟨"dis@x", "pw"⟩).state =
      ⟨[⟨1, "dis@x", bcryptHash "pw", "D", "member", false, none⟩], [], 2, 1⟩ :=
  login_inactive_rejected ⟨false, false⟩ "k" 5 "ip" _ "dis@x" "pw"
    ⟨1, "dis@x", bcryptHash "pw", "D", "member", false, none⟩ (by decide) (by decide) rfl

/-- C4: a login attempt with a nonexistent email and one with an existing
email but wrong password fail with the identical error kind, status and
message, so the two conditions are indistinguishable to the caller. -/
theorem login_nonenumerable (fm : FaultModel) (secret : String) (now : Nat) (ip : String)
    (st : DBState) (email1 password1 email2 password2 : String) (u : User)
    (h1 : findByEmail st.users email1 = none)
    (h2 : findByEmail st.users email2 = some u)
    (h3 : bcryptVerify password2 u.password_hash = false) :
    (login fm secret now ip st ⟨email1, password1⟩).result =
      .error (.http 401 "Invalid credentials") ∧
    (login fm secret now ip st ⟨email2, password2⟩).result =
      .error (.http 401 "Invalid credentials") := by
  constructor
  · simp [login, h1]
  · simp [login, h2, h3]

/-- Witness for C4: a store with one user; a lookup miss and a wrong
password produce the same 401 response. -/
theorem login_nonenumerable_witness :
    (login ⟨false, false⟩ "k" 5 "ip"
        ⟨[⟨1, "a@b", bcryptHash "pw", "A", "member", true, none⟩], [], 2, 1⟩
        ⟨"ghost@b", "pw"⟩).result = .error (.http 401 "Invalid credentials") ∧
    (login ⟨false, false⟩ "k" 5 "ip"
        ⟨[⟨1, "a@b", bcryptHash "pw", "A", "member", true, none⟩], [], 2, 1⟩
        ⟨"a@b", "wrong"⟩).result = .error (.http 401 "Invalid credentials") :=
  login_nonenumerable ⟨false, false⟩ "k" 5 "ip" _ "ghost@b" "pw" "a@b" "wrong"
    ⟨1, "a@b", bcryptHash "pw", "A", "member", true, none⟩ (by decide) (by decide) (by decide)

/-- C9: a search request whose `min_equity` is 0 builds exactly the filter
list of a request with no equity minimum, and likewise for `min_year_built`,
because Python truthiness treats the zero value as absent. -/
theorem zero_min_filter_absent (req : PropertySearchRequest) :
    buildSearchFilters { req with min_equity := some 0 } =
      buildSearchFilters { req with min_equity := none } ∧
    buildSearchFilters { req with min_year_built := some 0 } =
      buildSearchFilters { req with min_year_built := none } := by
  constructor <;> simp [buildSearchFilters, intTruthy]

/-- C10: the AI endpoint echoes the request model field (default "gpt-4o")
in its response, while the payload posted upstream by `query_openai` always
names model "gpt-4o" whatever the request asked. -/
theorem ai_model_echo (fm : FaultModel) (secret : String) (now : Nat) (ip : String)
    (apiKey : String) (post : OpenAIPayload → String) (token : TokenString)
    (req : AIQueryRequest) (st : DBState) (user : JWTPayload)
    (hdec : decode_token secret now token = .ok user)
    (hlog : fm.logWriteFails = false) :
    (ai_query_endpoint fm secret now ip apiKey post token req st).result =
      .ok ⟨query_openai apiKey post req.query
             (some (if strTruthy req.context then req.context.getD "" else defaultAIContext)),
           req.model⟩ ∧
    (∀ (prompt : String) (context : Option String),
      (query_openai_payload prompt context).model = "gpt-4o") ∧
    ({ query := "q" } : AIQueryRequest).model = some "gpt-4o" := by
  refine ⟨?_, fun _ _ => rfl, rfl⟩
  simp [ai_query_endpoint, hdec, log_activity, hlog]

/-- Witness for C10: a concrete valid token and request asking for model
"grok-3"; the response still echoes "grok-3" while the upstream payload
names "gpt-4o". -/
theorem ai_model_echo_witness :
    (ai_query_endpoint ⟨false, false⟩ "k" 5 "ip" "KEY" (fun _ => "hi")
        (create_token "k" 0 1 "a@b" "member") ⟨"what is arv", none, some "grok-3"⟩
        ⟨[], [], 1, 1⟩).result =
      .ok ⟨query_openai "KEY" (fun _ => "hi") "what is arv"
             (some (if strTruthy (none : Option String) then (none : Option String).getD ""
                    else defaultAIContext)),
           some "grok-3"⟩ ∧
    (∀ (prompt : String) (context : Option String),
      (query_openai_payload prompt context).model = "gpt-4o") ∧
    ({ query := "q" } : AIQueryRequest).model = some "gpt-4o" :=
  ai_model_echo ⟨false, false⟩ "k" 5 "ip" "KEY" (fun _ => "hi")
    (create_token "k" 0 1 "a@b" "member") ⟨"what is arv", none, some "grok-3"⟩
    ⟨[], [], 1, 1⟩ ⟨1, "a@b", "member", JWT_EXPIRY_HOURS * 3600⟩ rfl rfl

/-- C1: when the bearer token of the role-gated skip-trace operation fails
validation, or decodes to a role outside the allowed set, the request ends
in a 401 or 403 error before any side effect: the database (hence the audit
log) is unchanged and the event trace is empty, so no upstream call was
made. -/
theorem role_gate_no_side_effects (fm : FaultModel) (secret : String) (now : Nat) (ip : String)
    (token : TokenString) (address : String) (up : Upstream) (st : DBState)
    (h : ∀ user, decode_token secret now token = .ok user → user.role ∉ SKIP_TRACE_ROLES) :
    (skip_trace_endpoint fm secret now ip token address up st).state = st ∧
    (skip_trace_endpoint fm secret now ip token address up st).events = [] ∧
    ∃ s d, (skip_trace_endpoint fm secret now ip token address up st).result =
      .error (.http s d) ∧ (s = 401 ∨ s = 403) := by
  rcases hdec : decode_token secret now token with e | user
  · refine ⟨?_, ?_, tokenErrorStatus e, tokenErrorDetail e, ?_, ?_⟩ <;>
      first
        | simp [skip_trace_endpoint, hdec]
        | (cases e <;> simp [tokenErrorStatus])
  · have hrole : user.role ∉ SKIP_TRACE_ROLES := h user hdec
    refine ⟨?_, ?_, 403, "Insufficient permissions", ?_, .inr rfl⟩ <;>
      simp [skip_trace_endpoint, hdec, hrole]

/-- Witness for C1: a garbage bearer token against a concrete state; the
request is rejected with a 401-or-403 error, the state is unchanged and no
event fired. -/
theorem role_gate_no_side_effects_witness :
    (skip_trace_endpoint ⟨false, false⟩ "k" 5 "ip" (.garbage "nonsense") "123 Main St"
        ⟨fun _ => ⟨[⟨some "id1"⟩]⟩, fun _ => "traced", fun _ _ => "found"⟩
        ⟨[], [], 1, 1⟩).state = ⟨[], [], 1, 1⟩ ∧
    (skip_trace_endpoint ⟨false, false⟩ "k" 5 "ip" (.garbage "nonsense") "123 Main St"
        ⟨fun _ => ⟨[⟨some "id1"⟩]⟩, fun _ => "traced", fun _ _ => "found"⟩
        ⟨[], [], 1, 1⟩).events = [] ∧
    ∃ s d, (skip_trace_endpoint ⟨false, false⟩ "k" 5 "ip" (.garbage "nonsense") "123 Main St"
        ⟨fun _ => ⟨[⟨some "id1"⟩]⟩, fun _ => "traced", fun _ _ => "found"⟩
        ⟨[], [], 1, 1⟩).result = .error (.http s d) ∧ (s = 401 ∨ s = 403) :=
  role_gate_no_side_effects ⟨false, false⟩ "k" 5 "ip" (.garbage "nonsense") "123 Main St"
    ⟨fun _ => ⟨[⟨some "id1"⟩]⟩, fun _ => "traced", fun _ _ => "found"⟩ ⟨[], [], 1, 1⟩
    (fun user hu => by simp [decode_token] at hu)

/-- C5: registering a fresh email and then logging in with the same
credentials succeed, and the two issued tokens decode to the same `user_id`
claim. -/
theorem register_login_same_user_id (secret : String) (now now2 : Nat) (ip ip2 : String)
    (st : DBState) (email password name role : String)
    (hfresh : findByEmail st.users email = none) :
    ∃ (r1 r2 : TokenResponse),
      (register ⟨false, false⟩ secret now ip st ⟨email, password, name, role⟩).result = .ok r1 ∧
      (login ⟨false, false⟩ secret now2 ip2
          (register ⟨false, false⟩ secret now ip st ⟨email, password, name, role⟩).state
          ⟨email, password⟩).result = .ok r2 ∧
      ∃ (p1 p2 : JWTPayload) (s1 s2 : String),
        r1.access_token = .structured p1 s1 ∧ r2.access_token = .structured p2 s2 ∧
        p1.user_id = p2.user_id := by
  have hfresh' : st.users.find? (fun u => u.email == email) = none := hfresh
  have hreg : (register ⟨false, false⟩ secret now ip st ⟨email, password, name, role⟩) =
      ⟨.ok ⟨create_token secret now st.nextUserId email role, "bearer",
            ⟨st.nextUserId, email, name, role, true⟩⟩,
        { users := st.users ++ [⟨st.nextUserId, email, bcryptHash password, name, role, true, none⟩],
          activity_log := st.activity_log ++
            [⟨st.nextLogId, some st.nextUserId, "register", some "/api/v1/auth/register",
              none, some ip, now⟩],
          nextUserId := st.nextUserId + 1, nextLogId := st.nextLogId + 1 },
        [.userInsert, .tokenIssued, .auditInsert]⟩ := by
    simp [register, findByEmail, hfresh', log_activity]
  have hfind2 : findByEmail
      (st.users ++ [⟨st.nextUserId, email, bcryptHash password, name, role, true, none⟩]) email =
      some ⟨st.nextUserId, email, bcryptHash password, name, role, true, none⟩ := by
    simp [findByEmail, List.find?_append, hfresh']
  refine ⟨⟨create_token secret now st.nextUserId email role, "bearer",
            ⟨st.nextUserId, email, name, role, true⟩⟩,
          ⟨create_token secret now2 st.nextUserId email role, "bearer",
            ⟨st.nextUserId, email, name, role, true⟩⟩, ?_, ?_,
          ⟨st.nextUserId, email, role, now + JWT_EXPIRY_HOURS * 3600⟩,
          ⟨st.nextUserId, email, role, now2 + JWT_EXPIRY_HOURS * 3600⟩,
          _, _, rfl, rfl, rfl⟩
  · rw [hreg]
  · rw [hreg]
    simp [login, hfind2, bcryptVerify, touchLogin, log_activity]

/-- Witness for C5: registering then logging in on an initially empty store
yields tokens carrying the same `user_id`. -/
theorem register_login_same_user_id_witness :
    ∃ (r1 r2 : TokenResponse),
      (register ⟨false, false⟩ "k" 5 "ip" ⟨[], [], 1, 1⟩ ⟨"a@b", "pw", "Al", "member"⟩).result =
        .ok r1 ∧
      (login ⟨false, false⟩ "k" 9 "ip2"
          (register ⟨false, false⟩ "k" 5 "ip" ⟨[], [], 1, 1⟩ ⟨"a@b", "pw", "Al", "member"⟩).state
          ⟨"a@b", "pw"⟩).result = .ok r2 ∧
      ∃ (p1 p2 : JWTPayload) (s1 s2 : String),
        r1.access_token = .structured p1 s1 ∧ r2.access_token = .structured p2 s2 ∧
        p1.user_id = p2.user_id :=
  register_login_same_user_id "k" 5 9 "ip" "ip2" ⟨[], [], 1, 1⟩ "a@b" "pw" "Al" "member" rfl

/-- C6 counterexample: the same property-search request, at the same state,
with the same valid token, ends in an unhandled error when the audit-log
write fails and in a 200 result when it succeeds, so the HTTP-level outcome
is not independent of the audit write. -/
theorem audit_failure_changes_outcome_cex :
    (search_properties ⟨true, false⟩ "k" 5 "ip" (create_token "k" 0 1 "a@b" "member")
        ⟨"Tulsa", "OK", some 40, some false, none, some 10⟩
        ⟨fun _ => ⟨[]⟩, fun _ => "", fun _ _ => "searchResult"⟩ ⟨[], [], 1, 1⟩).result =
      .error .crash ∧
    (search_properties ⟨false, false⟩ "k" 5 "ip" (create_token "k" 0 1 "a@b" "member")
        ⟨"Tulsa", "OK", some 40, some false, none, some 10⟩
        ⟨fun _ => ⟨[]⟩, fun _ => "", fun _ _ => "searchResult"⟩ ⟨[], [], 1, 1⟩).result =
      .ok "searchResult" := by
  constructor <;> rfl

/-- C6 amended: a failure of the audit-log write is NOT swallowed: after a
valid token, the property-search request returns the upstream result when
the audit insert succeeds, but ends in an unhandled error (500-equivalent)
when the audit insert fails, since `log_activity` has no exception
handling. -/
theorem audit_failure_propagates (fm : FaultModel) (secret : String) (now : Nat) (ip : String)
    (token : TokenString) (req : PropertySearchRequest) (up : Upstream) (st : DBState)
    (user : JWTPayload) (hdec : decode_token secret now token = .ok user) :
    (fm.logWriteFails = true →
        (search_properties fm secret now ip token req up st).result = .error .crash) ∧
    (fm.logWriteFails = false →
        (search_properties fm secret now ip token req up st).result =
          .ok (up.propertySearch (buildSearchFilters req) req.max_results)) := by
  constructor <;> intro hl <;> simp [search_properties, hdec, log_activity, hl]

/-- Witness for C6 amended: the two fault settings at a concrete request. -/
theorem audit_failure_propagates_witness :
    (search_properties ⟨true, false⟩ "k" 5 "ip" (create_token "k" 0 1 "a@b" "member")
        ⟨"Tulsa", "OK", some 40, some false, none, some 10⟩
        ⟨fun _ => ⟨[]⟩, fun _ => "", fun _ _ => "searchResult"⟩ ⟨[], [], 1, 1⟩).result =
      .error .crash :=
  (audit_failure_propagates ⟨true, false⟩ "k" 5 "ip" (create_token "k" 0 1 "a@b" "member")
      ⟨"Tulsa", "OK", some 40, some false, none, some 10⟩
      ⟨fun _ => ⟨[]⟩, fun _ => "", fun _ _ => "searchResult"⟩ ⟨[], [], 1, 1⟩
      ⟨1, "a@b", "member", JWT_EXPIRY_HOURS * 3600⟩ rfl).1 rfl

/-- C7 counterexample: with correct credentials and an active user, login
returns a token when the last-login update succeeds, but when that update
fails the whole login ends in an unhandled error with no token issued — the
update is not best-effort. -/
theorem touch_login_blocks_cex :
    (login ⟨false, true⟩ "k" 5 "ip"
        ⟨[⟨1, "a@b", bcryptHash "pw", "Al", "member", true, none⟩], [], 2, 1⟩
        ⟨"a@b", "pw"⟩).result = .error .crash ∧
    (login ⟨false, true⟩ "k" 5 "ip"
        ⟨[⟨1, "a@b", bcryptHash "pw", "Al", "member", true, none⟩], [], 2, 1⟩
        ⟨"a@b", "pw"⟩).events = [] ∧
    (login ⟨false, false⟩ "k" 5 "ip"
        ⟨[⟨1, "a@b", bcryptHash "pw", "Al", "member", true, none⟩], [], 2, 1⟩
        ⟨"a@b", "pw"⟩).result =
      .ok ⟨create_token "k" 5 1 "a@b" "member", "bearer", ⟨1, "a@b", "Al", "member", true⟩⟩ := by
  refine ⟨rfl, rfl, rfl⟩

/-- C7 amended: the last-login update runs synchronously inside login before
token issuance and is not best-effort: when it fails, the login request ends
in an unhandled error (500-equivalent) and no token is issued (empty event
trace), even though the credentials were correct and the user active. -/
theorem touch_login_blocks_login (fm : FaultModel) (secret : String) (now : Nat) (ip : String)
    (st : DBState) (email password : String) (u : User)
    (hfind : findByEmail st.users email = some u)
    (hpw : bcryptVerify password u.password_hash = true)
    (hactive : u.is_active = true)
    (hfail : fm.touchLoginFails = true) :
    (login fm secret now ip st ⟨email, password⟩).result = .error .crash ∧
    (login fm secret now ip st ⟨email, password⟩).events = [] := by
  simp [login, hfind, hpw, hactive, hfail]

/-- Witness for C7 amended at a concrete store and user. -/
theorem touch_login_blocks_login_witness :
    (login ⟨false, true⟩ "k" 5 "ip"
        ⟨[⟨1, "b@c", bcryptHash "pw2", "Bo", "admin", true, none⟩], [], 2, 1⟩
        ⟨"b@c", "pw2"⟩).result = .error .crash ∧
    (login ⟨false, true⟩ "k" 5 "ip"
        ⟨[⟨1, "b@c", bcryptHash "pw2", "Bo", "admin", true, none⟩], [], 2, 1⟩
        ⟨"b@c", "pw2"⟩).events = [] :=
  touch_login_blocks_login ⟨false, true⟩ "k" 5 "ip" _ "b@c" "pw2"
    ⟨1, "b@c", bcryptHash "pw2", "Bo", "admin", true, none⟩ (by decide) (by decide) rfl rfl

/-- The joined view keeps the raw record timestamp whether or not the actor
was found. -/
theorem joinActor_timestamp (users : List User) (r : ActivityRecord) :
    (joinActor users r).timestamp = r.created_at := by
  unfold joinActor
  split <;> rfl

/-- C8: the activity listing returns at most `limit` rows (default 100),
ordered most recent first, joined with the actor name and email, rendering
null fields when the referenced user is missing; in particular with three
records at increasing times and limit 2 it returns exactly the two most
recent, newest first. -/
theorem activity_listing_spec (st : DBState) (limit : Nat) :
    (get_activity st limit).length ≤ limit ∧
    List.Pairwise (fun a b => b.timestamp ≤ a.timestamp) (get_activity st limit) ∧
    (∀ r : ActivityRecord,
        r.user_id.bind (fun uid => st.users.find? (fun u => u.id == uid)) = none →
        (joinActor st.users r).user_name = none ∧ (joinActor st.users r).user_email = none) ∧
    get_activity st = get_activity st 100 ∧
    get_activity ⟨[⟨1, "al@x", "h", "Al", "admin", true, none⟩],
        [⟨1, some 1, "a1", none, none, none, 10⟩,
         ⟨2, some 1, "a2", none, none, none, 20⟩,
         ⟨3, some 1, "a3", none, none, none, 30⟩], 2, 4⟩ 2 =
      [⟨3, some "Al", some "al@x", "a3", none, none, none, 30⟩,
       ⟨2, some "Al", some "al@x", "a2", none, none, none, 20⟩] := by
  refine ⟨?_, ?_, ?_, rfl, by decide⟩
  · rw [get_activity, List.length_map]
    exact List.length_take_le limit _
  · rw [get_activity, List.pairwise_map]
    have hs : List.Pairwise newerFirst (st.activity_log.insertionSort newerFirst) :=
      List.sorted_insertionSort newerFirst st.activity_log
    have ht : List.Pairwise newerFirst ((st.activity_log.insertionSort newerFirst).take limit) :=
      List.Pairwise.sublist (List.take_sublist limit _) hs
    refine ht.imp ?_
    intro a b hab
    rw [joinActor_timestamp, joinActor_timestamp]
    exact hab
  · intro r hr
    simp [joinActor, hr]

/-- Witness for C8: a record whose actor id is null joins to null name and
email fields on a concrete state. -/
theorem activity_listing_spec_witness :
    (get_activity ⟨[], [⟨1, none, "x", none, none, none, 7⟩], 1, 2⟩ 5).length ≤ 5 ∧
    (joinActor ([] : List User) ⟨1, none, "x", none, none, none, 7⟩).user_name = none ∧
    (joinActor ([] : List User) ⟨1, none, "x", none, none, none, 7⟩).user_email = none :=
  ⟨(activity_listing_spec ⟨[], [⟨1, none, "x", none, none, none, 7⟩], 1, 2⟩ 5).1,
   ((activity_listing_spec ⟨[], [⟨1, none, "x", none, none, none, 7⟩], 1, 2⟩ 5).2.2.1
      ⟨1, none, "x", none, none, none, 7⟩ rfl).1,
   ((activity_listing_spec ⟨[], [⟨1, none, "x", none, none, none, 7⟩], 1, 2⟩ 5).2.2.1
      ⟨1, none, "x", none, none, none, 7⟩ rfl).2⟩

end REI
